import Mathlib

/-!
Shallow embedding of the Movie-Oracle scoring code (src/shared.js, src/app.js,
src/discover.js).  JavaScript values relevant to the scoring functions are
modelled by `JSVal`; machine floats are modelled by exact rationals (the code
only performs +, *, /, comparison and rounding on values well inside the exact
range of IEEE doubles, so rational arithmetic agrees with the source on every
input any theorem below touches; float overflow to Infinity and the scientific
formatting of huge numbers are outside the modelled domain and are noted where
relevant).  NaN is represented by `JSVal.nan` at the value level and by `none`
at the `Option ℚ` level inside arithmetic.
-/

/-- Model of the JavaScript values that can appear in a movie-record field:
`undefined`, `null`, `NaN`, a finite number, or a string. -/
inductive JSVal where
  | undef
  | null
  | nan
  | num (q : ℚ)
  | str (s : String)
deriving DecidableEq

/-- Input record consumed by the scoring functions; every field is optional
(absent = `undefined`), exactly as the JS code treats missing properties. -/
structure MovieRecord where
  oracle_score : JSVal := JSVal.undef
  ai_score : JSVal := JSVal.undef
  metascore : JSVal := JSVal.undef
  rotten_tomatoes : JSVal := JSVal.undef
  imdb_rating : JSVal := JSVal.undef
  tmdb_rating : JSVal := JSVal.undef
  revenue : JSVal := JSVal.undef
  roi : JSVal := JSVal.undef
deriving DecidableEq

/-- JavaScript truthiness of the modelled values. -/
def jsTruthy : JSVal → Bool
  | JSVal.undef => false
  | JSVal.null => false
  | JSVal.nan => false
  | JSVal.num q => q ≠ 0
  | JSVal.str s => s ≠ ""

/-- Math.round: round half toward positive infinity. -/
def jsRound (q : ℚ) : ℤ := ⌊q + 1/2⌋

/-- ASCII decimal digit test. -/
def isDigit (c : Char) : Bool := '0' ≤ c ∧ c ≤ '9'

/-- Numeric value of a decimal digit character. -/
def digitVal (c : Char) : ℕ := c.toNat - '0'.toNat

/-- Whitespace characters skipped by the JS string-to-number conversions. -/
def wsChar (c : Char) : Bool := c = ' ' ∨ c = '\t' ∨ c = '\n' ∨ c = '\r'

/-- ASCII upper-casing of one character (String.prototype.toUpperCase on the
characters the code compares against "N/A"). -/
def upChar (c : Char) : Char :=
  if 'a' ≤ c ∧ c ≤ 'z' then Char.ofNat (c.toNat - 32) else c

/-- String.prototype.trim on a character list. -/
def trimChars (cs : List Char) : List Char :=
  ((cs.dropWhile wsChar).reverse.dropWhile wsChar).reverse

/-- Value of a list of decimal digit characters. -/
def digitsToNat (ds : List Char) : ℕ :=
  ds.foldl (fun a c => a * 10 + digitVal c) 0

/-- Longest-prefix decimal literal `digits [. digits]` or `. digits`, as
consumed by parseFloat / Number; returns integer part, fraction digits value,
fraction length, and the unconsumed rest, or `none` when no digit occurs in
the candidate prefix. -/
def parseDecSplit (cs : List Char) : Option ((ℕ × ℕ × ℕ) × List Char) :=
  let intPart := cs.takeWhile isDigit
  let rest := cs.dropWhile isDigit
  match rest with
  | '.' :: rest2 =>
      let fracPart := rest2.takeWhile isDigit
      let rest3 := rest2.dropWhile isDigit
      if intPart.isEmpty ∧ fracPart.isEmpty then none
      else some ((digitsToNat intPart, digitsToNat fracPart, fracPart.length), rest3)
  | _ =>
      if intPart.isEmpty then none else some ((digitsToNat intPart, 0, 0), rest)

/-- Optional leading sign; `true` means negative. -/
def signSplit (cs : List Char) : Bool × List Char :=
  match cs with
  | '+' :: r => (false, r)
  | '-' :: r => (true, r)
  | _ => (false, cs)

/-- Rational value of a parsed sign / integer part / fraction / exponent. -/
def decAssemble (neg : Bool) (t : ℕ × ℕ × ℕ) (e : ℤ) : ℚ :=
  (if neg then -1 else 1) * ((t.1 : ℚ) + (t.2.1 : ℚ) / (10 : ℚ) ^ t.2.2) * (10 : ℚ) ^ e

/-- Optional exponent part `e[±]digits` after a decimal literal; when the
exponent is malformed it is simply not consumed (longest-match semantics). -/
def parseExpPrefix (cs : List Char) : ℤ × List Char :=
  match cs with
  | c :: rest =>
      if c = 'e' ∨ c = 'E' then
        match rest with
        | '+' :: r2 =>
            let ds := r2.takeWhile isDigit
            if ds.isEmpty then (0, cs) else ((digitsToNat ds : ℤ), r2.dropWhile isDigit)
        | '-' :: r2 =>
            let ds := r2.takeWhile isDigit
            if ds.isEmpty then (0, cs) else (-(digitsToNat ds : ℤ), r2.dropWhile isDigit)
        | _ =>
            let ds := rest.takeWhile isDigit
            if ds.isEmpty then (0, cs) else ((digitsToNat ds : ℤ), rest.dropWhile isDigit)
      else (0, cs)
  | [] => (0, cs)

/-- Character-level part of parseFloat: whitespace, sign, decimal prefix,
optional exponent. -/
def floatSplit (cs : List Char) : Option (Bool × (ℕ × ℕ × ℕ) × ℤ) :=
  let cs := cs.dropWhile wsChar
  let (neg, cs) := signSplit cs
  match parseDecSplit cs with
  | some (t, rest) => some (neg, t, (parseExpPrefix rest).1)
  | none => none

/-- parseFloat on a character list: skip whitespace, optional sign, then the
longest decimal-literal prefix with optional exponent; `none` models NaN.
(The `Infinity` keyword is outside the modelled domain; no rating string in
any theorem uses it.) -/
def jsParseFloatChars (cs : List Char) : Option ℚ :=
  (floatSplit cs).map (fun p => decAssemble p.1 p.2.1 p.2.2)

/-- parseInt (radix 10) on a character list: skip whitespace, optional sign,
longest digit prefix; `none` models NaN.  (The `0x` hex prefix is outside the
modelled domain; no field string in any theorem uses it.) -/
def jsParseIntChars (cs : List Char) : Option ℤ :=
  let cs := cs.dropWhile wsChar
  let (neg, cs) := signSplit cs
  let ds := cs.takeWhile isDigit
  if ds.isEmpty then none
  else some ((if neg then -1 else 1) * (digitsToNat ds : ℤ))

/-- Character-level part of Number(string): trimmed empty string is 0,
otherwise the whole string must be one signed decimal literal with optional
exponent.  (Hex/binary/octal literals and the `Infinity` keyword are outside
the modelled domain; no theorem input uses them.) -/
def numberSplit (cs : List Char) : Option (Bool × (ℕ × ℕ × ℕ) × ℤ) :=
  let t := trimChars cs
  if t.isEmpty then some (false, (0, 0, 0), 0)
  else
    let (neg, t) := signSplit t
    match parseDecSplit t with
    | some (d, rest) =>
        let (e, rest2) := parseExpPrefix rest
        if rest2.isEmpty then some (neg, d, e) else none
    | none => none

/-- Number(string); `none` models NaN. -/
def jsStrToNumber (s : String) : Option ℚ :=
  (numberSplit s.data).map (fun p => decAssemble p.1 p.2.1 p.2.2)

/-- ToNumber coercion (the `Number(...)` conversion and the implicit coercion
performed by arithmetic operators); `none` models NaN. -/
def jsToNumber : JSVal → Option ℚ
  | JSVal.undef => none
  | JSVal.null => some 0
  | JSVal.nan => none
  | JSVal.num q => some q
  | JSVal.str s => jsStrToNumber s

/-- Truncation toward zero, the effect of parseInt on a finite number after
its default decimal formatting (exact for every number whose formatting has
no exponent, i.e. magnitude below 1e21 — all inputs in this development). -/
def ratTrunc (q : ℚ) : ℤ := if 0 ≤ q then ⌊q⌋ else ⌈q⌉

/-- parseInt applied to a movie-record field value. -/
def jsParseIntVal : JSVal → Option ℤ
  | JSVal.num q => some (ratTrunc q)
  | JSVal.str s => jsParseIntChars s.data
  | _ => none

/-- parseFloat applied to a movie-record field value (a finite number is
formatted and reparsed, which is the identity on the modelled domain). -/
def jsParseFloatVal : JSVal → Option ℚ
  | JSVal.num q => some q
  | JSVal.str s => jsParseFloatChars s.data
  | _ => none

/-- Decimal character rendering of a value, used where the source applies
String(...) or interpolates into a template.  Exact on strings and integers —
the only cases any theorem exercises; for a non-integral rational the
numerator/denominator fallback stands in for JS float formatting. -/
def jsValToChars : JSVal → List Char
  | JSVal.undef => "undefined".data
  | JSVal.null => "null".data
  | JSVal.nan => "NaN".data
  | JSVal.num q =>
      if q.den = 1 then (toString q.num).data
      else (toString q.num).data ++ '/' :: (toString q.den).data
  | JSVal.str s => s.data

/-- String rendering of a value (template-literal interpolation). -/
def jsValDisplay (v : JSVal) : String := String.mk (jsValToChars v)

/-- The `toNumber` helper of calculateOracleScore in src/shared.js:
null/undefined and non-finite numbers are absent; a string is absent when it
trims/upcases to "N/A", otherwise every character other than a digit or dot
is stripped and the remainder parsed with parseFloat. -/
def toNumber : JSVal → Option ℚ
  | JSVal.undef => none
  | JSVal.null => none
  | JSVal.nan => none
  | JSVal.num q => some q
  | JSVal.str s =>
      if (trimChars s.data).map upChar = ['N', '/', 'A'] then none
      else jsParseFloatChars (s.data.filter (fun c => isDigit c || c == '.'))

/-- Accumulation core of the src/shared.js fallback: weighted sums over the
four parsed signals (weights 3, 2.5, 2, 1.5; imdb/tmdb normalized ×10), then
`null` when no weight accumulated, else the clamped rounded weighted mean. -/
def sharedFallback (metascore rottenTomatoes imdb tmdb : Option ℚ) : Option ℤ :=
  let acc : ℚ × ℚ := (0, 0)
  let acc := match metascore with
    | some v => (acc.1 + v * 3, acc.2 + 3)
    | none => acc
  let acc := match rottenTomatoes with
    | some v => (acc.1 + v * (5/2), acc.2 + 5/2)
    | none => acc
  let acc := match imdb with
    | some v => (acc.1 + v * 10 * 2, acc.2 + 2)
    | none => acc
  let acc := match tmdb with
    | some v => (acc.1 + v * 10 * (3/2), acc.2 + 3/2)
    | none => acc
  if acc.2 = 0 then none
  else some (max 0 (min 100 (jsRound (acc.1 / acc.2))))

/-- calculateOracleScore in src/shared.js: when Number(oracle_score) is
finite return it rounded then clamped to [0,100]; otherwise the weighted
blend of the parsed signals. -/
def calculateOracleScore_shared (movie : MovieRecord) : Option ℤ :=
  match jsToNumber movie.oracle_score with
  | some baseScore => some (max 0 (min 100 (jsRound baseScore)))
  | none =>
      sharedFallback (toNumber movie.metascore) (toNumber movie.rotten_tomatoes)
        (toNumber movie.imdb_rating) (toNumber movie.tmdb_rating)

/-- Metacritic branch of the src/app.js accumulation (weight 3); acc is the
running (scoreSum, weightSum) pair, `none` modelling a NaN scoreSum. -/
def appMetaStage (movie : MovieRecord) (acc : Option ℚ × ℚ) : Option ℚ × ℚ :=
  if jsTruthy movie.metascore ∧ movie.metascore ≠ JSVal.str "N/A" then
    match jsParseIntVal movie.metascore with
    | some val => (acc.1.map (· + (val : ℚ) * 3), acc.2 + 3)
    | none => acc
  else acc

/-- Rotten Tomatoes branch of the src/app.js accumulation (weight 2.5). -/
def appRtStage (movie : MovieRecord) (acc : Option ℚ × ℚ) : Option ℚ × ℚ :=
  if jsTruthy movie.rotten_tomatoes ∧ movie.rotten_tomatoes ≠ JSVal.str "N/A" then
    match jsParseIntVal movie.rotten_tomatoes with
    | some val => (acc.1.map (· + (val : ℚ) * (5/2)), acc.2 + 5/2)
    | none => acc
  else acc

/-- IMDb branch of the src/app.js accumulation (×10, weight 2). -/
def appImdbStage (movie : MovieRecord) (acc : Option ℚ × ℚ) : Option ℚ × ℚ :=
  if jsTruthy movie.imdb_rating ∧ movie.imdb_rating ≠ JSVal.str "N/A" then
    match jsParseFloatVal movie.imdb_rating with
    | some val => (acc.1.map (· + val * 10 * 2), acc.2 + 2)
    | none => acc
  else acc

/-- TMDb branch of the src/app.js accumulation (×10, weight 1): the value is
added by the arithmetic coercion with no parse or NaN guard, so an
unparseable truthy value turns the scoreSum into NaN. -/
def appTmdbStage (movie : MovieRecord) (acc : Option ℚ × ℚ) : Option ℚ × ℚ :=
  if jsTruthy movie.tmdb_rating then
    ((match jsToNumber movie.tmdb_rating with
      | some t => acc.1.map (· + t * 10 * 1)
      | none => none), acc.2 + 1)
  else acc

/-- Signal accumulation of calculateOracleScore in src/app.js (steps 1-2 of
the fallback): the four branches run in source order. -/
def appSignalSums (movie : MovieRecord) : Option ℚ × ℚ :=
  appTmdbStage movie (appImdbStage movie (appRtStage movie (appMetaStage movie (some 0, 0))))

/-- Step 3 of src/app.js: the "cult classic" divergence bonus, +5 when the
parsed imdb rating ×10 strictly exceeds the parsed metascore +15 (a NaN on
either side makes the comparison false, so no bonus). -/
def appCultBonus (movie : MovieRecord) (finalScore : Option ℚ) : Option ℚ :=
  if jsTruthy movie.imdb_rating ∧ jsTruthy movie.metascore ∧
      movie.metascore ≠ JSVal.str "N/A" then
    match jsParseFloatVal movie.imdb_rating, jsParseIntVal movie.metascore with
    | some iv, some mv => if iv * 10 > (mv : ℚ) + 15 then finalScore.map (· + 5) else finalScore
    | _, _ => finalScore
  else finalScore

/-- Step 4 of src/app.js: the blockbuster bonus, +3 when revenue is a truthy
string whose digits parse to at least 1,000,000,000. -/
def appBlockbusterBonus (movie : MovieRecord) (finalScore : Option ℚ) : Option ℚ :=
  match movie.revenue with
  | JSVal.str s =>
      if jsTruthy (JSVal.str s) then
        match jsParseIntChars (s.data.filter isDigit) with
        | some rv => if rv ≥ 1000000000 then finalScore.map (· + 3) else finalScore
        | none => finalScore
      else finalScore
  | _ => finalScore

/-- calculateOracleScore in src/app.js: a non-undefined, non-null
oracle_score is returned verbatim (no clamp, no rounding); otherwise the
weighted blend plus bonuses, capped at 100 from above only. -/
def calculateOracleScore_app (movie : MovieRecord) : JSVal :=
  if movie.oracle_score ≠ JSVal.undef ∧ movie.oracle_score ≠ JSVal.null then
    movie.oracle_score
  else
    let acc := appSignalSums movie
    if acc.2 = 0 then JSVal.null
    else
      let finalScore := appBlockbusterBonus movie (appCultBonus movie (acc.1.map (· / acc.2)))
      match finalScore with
      | some q => JSVal.num ((min 100 (jsRound q) : ℤ) : ℚ)
      | none => JSVal.nan

/-- IMDb push of the src/discover.js component collection (×10). -/
def discImdbStage (movie : MovieRecord) (components : List (Option ℚ)) : List (Option ℚ) :=
  if jsTruthy movie.imdb_rating ∧ movie.imdb_rating ≠ JSVal.str "N/A" then
    match jsParseFloatVal movie.imdb_rating with
    | some v => components ++ [some (v * 10)]
    | none => components
  else components

/-- Rotten Tomatoes push of the src/discover.js component collection. -/
def discRtStage (movie : MovieRecord) (components : List (Option ℚ)) : List (Option ℚ) :=
  if jsTruthy movie.rotten_tomatoes ∧ movie.rotten_tomatoes ≠ JSVal.str "N/A" then
    match jsParseIntVal movie.rotten_tomatoes with
    | some v => components ++ [some ((v : ℚ))]
    | none => components
  else components

/-- Metacritic push of the src/discover.js component collection. -/
def discMetaStage (movie : MovieRecord) (components : List (Option ℚ)) : List (Option ℚ) :=
  if jsTruthy movie.metascore ∧ movie.metascore ≠ JSVal.str "N/A" then
    match jsParseIntVal movie.metascore with
    | some v => components ++ [some ((v : ℚ))]
    | none => components
  else components

/-- TMDb push of the src/discover.js component collection: pushed by the
arithmetic coercion with no parse guard, so an unparseable truthy value
pushes a NaN (`none`) component. -/
def discTmdbStage (movie : MovieRecord) (components : List (Option ℚ)) : List (Option ℚ) :=
  if jsTruthy movie.tmdb_rating then
    components ++ [(jsToNumber movie.tmdb_rating).map (· * 10)]
  else components

/-- Component collection of calculateOracleScore in src/discover.js: an
unweighted list of the parsed signals, pushed in source order. -/
def discoverComponents (movie : MovieRecord) : List (Option ℚ) :=
  discTmdbStage movie (discMetaStage movie (discRtStage movie (discImdbStage movie [])))

/-- One step of NaN-absorbing summation. -/
def optStep (a c : Option ℚ) : Option ℚ :=
  match a, c with
  | some x, some y => some (x + y)
  | _, _ => none

/-- Sum of a list of possibly-NaN numbers (NaN absorbs). -/
def optSum (l : List (Option ℚ)) : Option ℚ :=
  l.foldl optStep (some 0)

/-- Financial modifier of src/discover.js: ROI tiers (+5 / +2 / −5) plus
revenue tiers (+5 at ≥$1B, +2 at ≥$500M). -/
def discoverModifier (movie : MovieRecord) : ℚ :=
  (if jsTruthy movie.roi ∧ movie.roi ≠ JSVal.str "N/A" then
     match jsParseFloatVal movie.roi with
     | some r => if r ≥ 4 then 5 else if r ≥ 5/2 then 2 else if r < 1 then -5 else 0
     | none => 0
   else 0)
  +
  (if jsTruthy movie.revenue ∧ movie.revenue ≠ JSVal.str "N/A" then
     match jsParseIntChars ((jsValToChars movie.revenue).filter isDigit) with
     | some rv => if rv ≥ 1000000000 then 5 else if rv ≥ 500000000 then 2 else 0
     | none => 0
   else 0)

/-- Tail of calculateOracleScore in src/discover.js: null on an empty
component list, otherwise the unweighted mean of the components plus the
financial modifier, rounded and clamped to [0,100]; a NaN mean passes
through every arithmetic step and is returned as NaN. -/
def discoverFinish (components : List (Option ℚ)) (modifier : ℚ) : JSVal :=
  if components = [] then JSVal.null
  else
    match (optSum components).map (· / (components.length : ℚ)) with
    | some b => JSVal.num ((min 100 (max 0 (jsRound (b + modifier))) : ℤ) : ℚ)
    | none => JSVal.nan

/-- calculateOracleScore in src/discover.js: a non-undefined, non-null
ai_score is returned verbatim; otherwise the unweighted mean of the present
components plus the financial modifier, clamped to [0,100]. -/
def calculateOracleScore_discover (movie : MovieRecord) : JSVal :=
  if movie.ai_score ≠ JSVal.undef ∧ movie.ai_score ≠ JSVal.null then
    movie.ai_score
  else discoverFinish (discoverComponents movie) (discoverModifier movie)

/-- buildRatingBox in src/shared.js: the empty string for a falsy value or
the literal string "N/A", otherwise the rating box markup. -/
def buildRatingBox (label : String) (value : JSVal) (isOracle : Bool := false) : String :=
  if ¬ jsTruthy value ∨ value = JSVal.str "N/A" then ""
  else
    let labelClass := if isOracle then "text-accent-gold" else "text-cream/20"
    let borderClass := if isOracle then "border-accent-gold/20 bg-accent-gold/5" else "border-white/5"
    "<div class=\"flex-1 border " ++ borderClass ++ " p-4 text-center\"><p class=\"text-[8px] font-bold "
      ++ labelClass ++ " uppercase mb-2 tracking-widest\">" ++ label
      ++ "</p><p class=\"text-sm font-bold text-cream/80\">" ++ jsValDisplay value ++ "</p></div>"

/-- Oracle badge fragment of the result-card template in createBigCard
(src/app.js): emitted only when the computed oracle score is truthy. -/
def createBigCardOracleBadge (movie : MovieRecord) : String :=
  let oracleScore := calculateOracleScore_app movie
  if jsTruthy oracleScore then
    "<div class=\"flex items-center gap-2 text-[10px] font-bold tracking-widest text-accent-gold uppercase\"><i data-lucide=\"sparkles\" class=\"w-3 h-3\"></i><span>Oracle</span><span class=\"text-cream/80\">"
      ++ jsValDisplay oracleScore ++ "</span></div>"
  else ""

/-- Selector for the four rating-signal fields of a record. -/
inductive Signal where
  | metascore
  | rottenTomatoes
  | imdbRating
  | tmdbRating
deriving DecidableEq

/-- Read one rating-signal field. -/
def getSignal (m : MovieRecord) : Signal → JSVal
  | Signal.metascore => m.metascore
  | Signal.rottenTomatoes => m.rotten_tomatoes
  | Signal.imdbRating => m.imdb_rating
  | Signal.tmdbRating => m.tmdb_rating

/-- Replace one rating-signal field. -/
def setSignal (m : MovieRecord) : Signal → JSVal → MovieRecord
  | Signal.metascore, v => { m with metascore := v }
  | Signal.rottenTomatoes, v => { m with rotten_tomatoes := v }
  | Signal.imdbRating, v => { m with imdb_rating := v }
  | Signal.tmdbRating, v => { m with tmdb_rating := v }

/-- Signals of a record as the specification describes them: each of the four
sources normalized to the 0-100 scale, paired with its weight (3, 2.5, 2,
1.5), present exactly when the shared toNumber parse succeeds. -/
def specSignals (m : MovieRecord) : List (Option ℚ × ℚ) :=
  [(toNumber m.metascore, 3),
   (toNumber m.rotten_tomatoes, 5/2),
   ((toNumber m.imdb_rating).map (· * 10), 2),
   ((toNumber m.tmdb_rating).map (· * 10), 3/2)]

/-- The present signals of a record (value, weight), per the specification. -/
def presentSignals (m : MovieRecord) : List (ℚ × ℚ) :=
  (specSignals m).filterMap (fun p => p.1.map (fun v => (v, p.2)))

/-- Presence of one rating signal for the src/discover.js fallback: the
field passes that variant's own guard and its own parse yields the stated
numeric value. -/
def discoverSignalPresent : Signal → JSVal → ℚ → Prop
  | Signal.metascore, v, a => jsTruthy v = true ∧ v ≠ JSVal.str "N/A" ∧
      ∃ n : ℤ, jsParseIntVal v = some n ∧ ((n : ℚ)) = a
  | Signal.rottenTomatoes, v, a => jsTruthy v = true ∧ v ≠ JSVal.str "N/A" ∧
      ∃ n : ℤ, jsParseIntVal v = some n ∧ ((n : ℚ)) = a
  | Signal.imdbRating, v, a => jsTruthy v = true ∧ v ≠ JSVal.str "N/A" ∧
      jsParseFloatVal v = some a
  | Signal.tmdbRating, v, a => jsTruthy v = true ∧ jsToNumber v = some a

/-- Modelled from the spec: the weighted blend
`sum(value_i * weight_i) / sum(weight_i)` over exactly the present signals,
unavailable when no signal is present (claim C3's formula, stated
independently of the implementation for comparison with it). -/
def specWeightedBlend (m : MovieRecord) : Option ℚ :=
  let ps := presentSignals m
  if ps = [] then none
  else some (((ps.map (fun p => p.1 * p.2)).sum) / ((ps.map Prod.snd).sum))

/-- Bounds of the clamp used by src/shared.js. -/
theorem clamp_bounds (z : ℤ) : 0 ≤ max 0 (min 100 z) ∧ max 0 (min 100 z) ≤ 100 :=
  ⟨le_max_left 0 _, max_le (by norm_num) (min_le_left 100 z)⟩

/-- Monotonicity of rounding followed by clamping to [0,100]. -/
theorem clampRound_mono {q r : ℚ} (h : q ≤ r) :
    max 0 (min 100 (jsRound q)) ≤ max 0 (min 100 (jsRound r))  := by
  have hf : jsRound q ≤ jsRound r := Int.floor_mono (by linarith)
  exact max_le_max le_rfl (min_le_min le_rfl hf)

/-- The shared-variant score depends only on the coerced oracle_score and the
four parsed signals. -/
theorem shared_congr (m m' : MovieRecord)
    (h0 : jsToNumber m.oracle_score = jsToNumber m'.oracle_score)
    (h1 : toNumber m.metascore = toNumber m'.metascore)
    (h2 : toNumber m.rotten_tomatoes = toNumber m'.rotten_tomatoes)
    (h3 : toNumber m.imdb_rating = toNumber m'.imdb_rating)
    (h4 : toNumber m.tmdb_rating = toNumber m'.tmdb_rating) :
    calculateOracleScore_shared m = calculateOracleScore_shared m' := by
  unfold calculateOracleScore_shared
  rw [h0, h1, h2, h3, h4]

/-- The shared fallback is unavailable or an integer in [0,100]. -/
theorem sharedFallback_range (mo ro io td : Option ℚ) :
    sharedFallback mo ro io td = none ∨
    ∃ z : ℤ, sharedFallback mo ro io td = some z ∧ 0 ≤ z ∧ z ≤ 100 := by
  rcases mo with _ | v <;> rcases ro with _ | r <;> rcases io with _ | i <;>
    rcases td with _ | t <;>
    · simp only [sharedFallback]
      split
      · exact Or.inl rfl
      · exact Or.inr ⟨_, rfl, clamp_bounds _⟩

/-- Raising the metascore signal never lowers the shared fallback. -/
theorem sharedFallback_mono_meta (ro io td : Option ℚ) {a b : ℚ} (hab : a ≤ b) :
    ∃ x y, sharedFallback (some a) ro io td = some x ∧
      sharedFallback (some b) ro io td = some y ∧ x ≤ y := by
  rcases ro with _ | r <;> rcases io with _ | i <;> rcases td with _ | t <;>
    · simp only [sharedFallback]
      rw [if_neg (by norm_num), if_neg (by norm_num)]
      exact ⟨_, _, rfl, rfl, clampRound_mono (by gcongr)⟩

/-- Raising the rotten_tomatoes signal never lowers the shared fallback. -/
theorem sharedFallback_mono_rt (mo io td : Option ℚ) {a b : ℚ} (hab : a ≤ b) :
    ∃ x y, sharedFallback mo (some a) io td = some x ∧
      sharedFallback mo (some b) io td = some y ∧ x ≤ y := by
  rcases mo with _ | v <;> rcases io with _ | i <;> rcases td with _ | t <;>
    · simp only [sharedFallback]
      rw [if_neg (by norm_num), if_neg (by norm_num)]
      exact ⟨_, _, rfl, rfl, clampRound_mono (by gcongr)⟩

/-- Raising the imdb signal never lowers the shared fallback. -/
theorem sharedFallback_mono_imdb (mo ro td : Option ℚ) {a b : ℚ} (hab : a ≤ b) :
    ∃ x y, sharedFallback mo ro (some a) td = some x ∧
      sharedFallback mo ro (some b) td = some y ∧ x ≤ y := by
  rcases mo with _ | v <;> rcases ro with _ | r <;> rcases td with _ | t <;>
    · simp only [sharedFallback]
      rw [if_neg (by norm_num), if_neg (by norm_num)]
      exact ⟨_, _, rfl, rfl, clampRound_mono (by gcongr)⟩

/-- Raising the tmdb signal never lowers the shared fallback. -/
theorem sharedFallback_mono_tmdb (mo ro io : Option ℚ) {a b : ℚ} (hab : a ≤ b) :
    ∃ x y, sharedFallback mo ro io (some a) = some x ∧
      sharedFallback mo ro io (some b) = some y ∧ x ≤ y := by
  rcases mo with _ | v <;> rcases ro with _ | r <;> rcases io with _ | i <;>
    · simp only [sharedFallback]
      rw [if_neg (by norm_num), if_neg (by norm_num)]
      exact ⟨_, _, rfl, rfl, clampRound_mono (by gcongr)⟩

/-- C1 counterexample: the claim fails on the src/app.js variant, which
returns a trusted oracle_score verbatim — 150 comes back as 150, not as
clamp(round(150)) = 100. -/
theorem c1_trust_tier_counterexample :
    calculateOracleScore_app { oracle_score := JSVal.num 150 } = JSVal.num 150 ∧
    JSVal.num 150 ≠ JSVal.num ((max 0 (min 100 (jsRound 150)) : ℤ) : ℚ) := by
  constructor
  · simp [calculateOracleScore_app]
  · simp only [ne_eq, JSVal.num.injEq]
    norm_num [jsRound]

/-- C1 (amended): only the src/shared.js variant returns the trusted score
rounded and clamped to [0,100] independently of every other field; the
src/app.js and src/discover.js variants return the trusted value unchanged
(neither rounded nor clamped). -/
theorem c1_trust_tier_amended :
    (∀ (m : MovieRecord) (q : ℚ), jsToNumber m.oracle_score = some q →
        calculateOracleScore_shared m = some (max 0 (min 100 (jsRound q)))) ∧
    (∀ m : MovieRecord, m.oracle_score ≠ JSVal.undef → m.oracle_score ≠ JSVal.null →
        calculateOracleScore_app m = m.oracle_score) ∧
    (∀ m : MovieRecord, m.ai_score ≠ JSVal.undef → m.ai_score ≠ JSVal.null →
        calculateOracleScore_discover m = m.ai_score) := by
  refine ⟨?_, ?_, ?_⟩
  · intro m q h
    unfold calculateOracleScore_shared
    rw [h]
  · intro m h1 h2
    unfold calculateOracleScore_app
    rw [if_pos ⟨h1, h2⟩]
  · intro m h1 h2
    unfold calculateOracleScore_discover
    rw [if_pos ⟨h1, h2⟩]

/-- C1 witness: concrete instances of the three amended conjuncts. -/
theorem c1_trust_tier_amended_witness :
    calculateOracleScore_shared { oracle_score := JSVal.num 150, metascore := JSVal.num 10 }
      = some 100 ∧
    calculateOracleScore_app { oracle_score := JSVal.num (85/2) } = JSVal.num (85/2) ∧
    calculateOracleScore_discover { ai_score := JSVal.num (-7) } = JSVal.num (-7) := by
  refine ⟨?_, ?_, ?_⟩
  · rw [c1_trust_tier_amended.1 { oracle_score := JSVal.num 150, metascore := JSVal.num 10 }
      150 rfl]
    norm_num [jsRound]
  · exact c1_trust_tier_amended.2.1 _ (by simp) (by simp)
  · exact c1_trust_tier_amended.2.2 _ (by simp) (by simp)

/-- C2 counterexample: the discover variant returns a raw ai_score of 150,
which is neither null nor an integer in [0,100]. -/
theorem c2_clamp_counterexample :
    calculateOracleScore_discover { ai_score := JSVal.num 150 } = JSVal.num 150 ∧
    ¬ ((150 : ℚ) ≤ 100) := by
  constructor
  · simp [calculateOracleScore_discover]
  · norm_num

/-- C2 (amended): the clamp invariant holds for the src/shared.js variant on
every input: the result is unavailable or an integer in [0,100]. -/
theorem c2_clamp_amended (m : MovieRecord) :
    calculateOracleScore_shared m = none ∨
    ∃ z : ℤ, calculateOracleScore_shared m = some z ∧ 0 ≤ z ∧ z ≤ 100 := by
  unfold calculateOracleScore_shared
  cases jsToNumber m.oracle_score with
  | some q => exact Or.inr ⟨_, rfl, clamp_bounds _⟩
  | none => exact sharedFallback_range _ _ _ _

/-- C4 counterexample: the claim also covers the src/shared.js variant of
calculateOracleScore, which has no divergence bonus at all — the record
with imdb_rating 9.0 and metascore 60 scores the plain weighted blend 72
there, not the 77 the claim asserts. -/
theorem c4_divergence_counterexample :
    calculateOracleScore_shared { imdb_rating := JSVal.num 9, metascore := JSVal.num 60 }
      = some 72 ∧ (72 : ℤ) ≠ 77 := by
  constructor
  · simp [calculateOracleScore_shared, sharedFallback, toNumber, jsToNumber]
    norm_num [jsRound]
  · decide

/-- C4 (amended): in the src/app.js variant the +5 divergence bonus is added
exactly when the parsed imdb rating ×10 minus the parsed metascore strictly
exceeds 15 (so the boundary case equal to 15 does not trigger it), and the
record with imdb_rating 9.0 and metascore 60 scores 77 there while the
boundary record with imdb_rating 7.5 and metascore 60 scores 66 (no bonus);
the src/shared.js variant, which the claim also cites, has no divergence
bonus and scores the first record 72 (the counterexample). -/
theorem c4_divergence_bonus :
    (∀ (m : MovieRecord) (iv : ℚ) (mv : ℤ),
        jsTruthy m.imdb_rating = true →
        jsParseFloatVal m.imdb_rating = some iv →
        jsTruthy m.metascore = true →
        m.metascore ≠ JSVal.str "N/A" →
        jsParseIntVal m.metascore = some mv →
        ∀ f : Option ℚ,
          appCultBonus m f = if 15 < iv * 10 - (mv : ℚ) then f.map (· + 5) else f) ∧
    calculateOracleScore_app { imdb_rating := JSVal.num 9, metascore := JSVal.num 60 }
      = JSVal.num 77 ∧
    calculateOracleScore_app { imdb_rating := JSVal.num (15/2), metascore := JSVal.num 60 }
      = JSVal.num 66 := by
  refine ⟨?_, ?_, ?_⟩
  · intro m iv mv h1 h2 h3 h4 h5 f
    unfold appCultBonus
    rw [if_pos ⟨h1, h3, h4⟩]
    simp only [h2, h5]
    by_cases hc : (mv : ℚ) + 15 < iv * 10
    · rw [if_pos hc, if_pos (by linarith)]
    · rw [if_neg hc, if_neg (fun h => hc (by linarith))]
  · simp [calculateOracleScore_app, appSignalSums, appMetaStage, appRtStage, appImdbStage, appTmdbStage, appCultBonus, appBlockbusterBonus,
      jsTruthy, jsParseIntVal, jsParseFloatVal, ratTrunc, jsToNumber]
    norm_num [jsRound]
  · simp [calculateOracleScore_app, appSignalSums, appMetaStage, appRtStage, appImdbStage, appTmdbStage, appCultBonus, appBlockbusterBonus,
      jsTruthy, jsParseIntVal, jsParseFloatVal, ratTrunc, jsToNumber]
    norm_num [jsRound]

/-- C4 witness: the bonus rule applied at the concrete inputs of the claim. -/
theorem c4_divergence_bonus_witness :
    appCultBonus { imdb_rating := JSVal.num 9, metascore := JSVal.num 60 } (some 72)
      = some 77 := by
  rw [c4_divergence_bonus.1 { imdb_rating := JSVal.num 9, metascore := JSVal.num 60 } 9 60
    (by norm_num [jsTruthy]) rfl (by norm_num [jsTruthy])
    (by simp) (by norm_num [jsParseIntVal, ratTrunc])]
  norm_num

/-- C8: whenever Number coercion of oracle_score is finite — numeric strings
and the empty string (which coerces to 0) included — the shared variant
returns it rounded and clamped without consulting any rating signal;
in particular the empty-string record scores 0 even with metascore 99. -/
theorem c8_trust_coercion :
    (∀ (m : MovieRecord) (q : ℚ), jsToNumber m.oracle_score = some q →
        calculateOracleScore_shared m = some (max 0 (min 100 (jsRound q)))) ∧
    jsToNumber (JSVal.str "") = some 0 ∧
    calculateOracleScore_shared { oracle_score := JSVal.str "", metascore := JSVal.num 99 }
      = some 0 := by
  refine ⟨?_, ?_, ?_⟩
  · intro m q h
    unfold calculateOracleScore_shared
    rw [h]
  · simp [jsToNumber, jsStrToNumber,
      (by decide : numberSplit "".data = some (false, (0, 0, 0), 0)), decAssemble]
  · simp [calculateOracleScore_shared, jsToNumber, jsStrToNumber,
      (by decide : numberSplit "".data = some (false, (0, 0, 0), 0)), decAssemble]
    norm_num [jsRound]

/-- C8 witness: a numeric string oracle_score is parsed, rounded, clamped. -/
theorem c8_trust_coercion_witness :
    calculateOracleScore_shared { oracle_score := JSVal.str "3.5" } = some 4 := by
  have h : jsToNumber (JSVal.str "3.5") = some (7/2) := by
    simp [jsToNumber, jsStrToNumber,
      (by decide : numberSplit "3.5".data = some (false, (3, 5, 1), 0)), decAssemble]
    norm_num
  rw [c8_trust_coercion.1 { oracle_score := JSVal.str "3.5" } (7/2) h]
  norm_num [jsRound]

/-- C9: a computed score of exactly 0 renders like unavailable —
buildRatingBox returns the empty string for 0 just as for a missing value,
null, or "N/A", and the result-card badge is emitted only for a truthy
score, so a 0 score produces no badge. -/
theorem c9_zero_badge :
    (∀ (label : String) (flag : Bool), buildRatingBox label (JSVal.num 0) flag = "") ∧
    (∀ (label : String) (flag : Bool), buildRatingBox label JSVal.undef flag = "") ∧
    (∀ (label : String) (flag : Bool), buildRatingBox label JSVal.null flag = "") ∧
    (∀ (label : String) (flag : Bool), buildRatingBox label (JSVal.str "N/A") flag = "") ∧
    (∀ m : MovieRecord, calculateOracleScore_app m = JSVal.num 0 →
        createBigCardOracleBadge m = "") := by
  refine ⟨?_, ?_, ?_, ?_, ?_⟩
  · intro label flag
    simp [buildRatingBox, jsTruthy]
  · intro label flag
    simp [buildRatingBox, jsTruthy]
  · intro label flag
    simp [buildRatingBox, jsTruthy]
  · intro label flag
    simp [buildRatingBox, jsTruthy]
  · intro m h
    unfold createBigCardOracleBadge
    rw [h]
    simp [jsTruthy]

/-- C9 witness: a record that blends to exactly 0 gets no Oracle badge. -/
theorem c9_zero_badge_witness :
    createBigCardOracleBadge { metascore := JSVal.str "0" } = "" := by
  apply c9_zero_badge.2.2.2.2
  simp [calculateOracleScore_app, appSignalSums, appMetaStage, appRtStage, appImdbStage, appTmdbStage, appCultBonus, appBlockbusterBonus,
    jsTruthy, jsParseIntVal, jsParseFloatVal, ratTrunc, jsToNumber,
    (by decide : jsParseIntChars "0".data = some 0)]
  norm_num [jsRound]

/-- C10: the src/app.js blockbuster bonus fires only for string revenue — a
plain-number revenue field behaves exactly like an absent one, even at two
billion, while the same amount as a currency string earns +3. -/
theorem c10_blockbuster_string_only :
    (∀ (m : MovieRecord) (q : ℚ),
        calculateOracleScore_app { m with revenue := JSVal.num q } =
          calculateOracleScore_app { m with revenue := JSVal.undef }) ∧
    calculateOracleScore_app { metascore := JSVal.num 50, revenue := JSVal.num 2000000000 }
      = JSVal.num 50 ∧
    calculateOracleScore_app { metascore := JSVal.num 50, revenue := JSVal.str "$2,000,000,000" }
      = JSVal.num 53 := by
  refine ⟨?_, ?_, ?_⟩
  · intro m q
    simp [calculateOracleScore_app, appSignalSums, appMetaStage, appRtStage, appImdbStage, appTmdbStage, appCultBonus, appBlockbusterBonus]
  · simp [calculateOracleScore_app, appSignalSums, appMetaStage, appRtStage, appImdbStage, appTmdbStage, appCultBonus, appBlockbusterBonus,
      jsTruthy, jsParseIntVal, jsParseFloatVal, ratTrunc, jsToNumber]
    norm_num [jsRound]
  · simp [calculateOracleScore_app, appSignalSums, appMetaStage, appRtStage, appImdbStage, appTmdbStage, appCultBonus, appBlockbusterBonus,
      jsTruthy, jsParseIntVal, jsParseFloatVal, ratTrunc, jsToNumber,
      (by decide : jsParseIntChars ("$2,000,000,000".data.filter isDigit) = some 2000000000)]
    norm_num [jsRound]

/-- C3 counterexample: in the discover variant an unparseable truthy
tmdb_rating is not skipped — with metascore 70 present the result becomes
NaN instead of the weighted average 70 of the present signals. -/
theorem c3_blend_counterexample :
    calculateOracleScore_discover
      { metascore := JSVal.num 70, tmdb_rating := JSVal.str "N/A" } = JSVal.nan ∧
    calculateOracleScore_discover { metascore := JSVal.num 70 } = JSVal.num 70 ∧
    JSVal.nan ≠ JSVal.num 70 := by
  refine ⟨?_, ?_, ?_⟩
  · simp [calculateOracleScore_discover, discoverComponents, discImdbStage, discRtStage, discMetaStage, discTmdbStage, optSum, optStep, discoverFinish, discoverModifier,
      jsTruthy, jsParseIntVal, jsParseFloatVal, ratTrunc, jsToNumber, jsStrToNumber,
      (by decide : numberSplit "N/A".data = none)]
  · simp [calculateOracleScore_discover, discoverComponents, discImdbStage, discRtStage, discMetaStage, discTmdbStage, optSum, optStep, discoverFinish, discoverModifier,
      jsTruthy, jsParseIntVal, jsParseFloatVal, ratTrunc, jsToNumber]
    norm_num [jsRound]
  · simp

/-- C3 (amended): in the src/shared.js variant, when no trusted score is
present the result is exactly the weighted average over the present signals
(rounded and clamped), unavailable when none is present, and a record whose
signal fails to parse scores the same as one with that field removed; the
discover variant instead breaks this on a truthy unparseable tmdb_rating. -/
theorem c3_blend_amended (m : MovieRecord) (h0 : jsToNumber m.oracle_score = none) :
    calculateOracleScore_shared m =
      (specWeightedBlend m).map (fun q => max 0 (min 100 (jsRound q))) ∧
    ∀ sig : Signal, toNumber (getSignal m sig) = none →
      calculateOracleScore_shared (setSignal m sig JSVal.undef) =
        calculateOracleScore_shared m := by
  constructor
  · rcases hm : toNumber m.metascore with _ | v <;>
      rcases hr : toNumber m.rotten_tomatoes with _ | r <;>
      rcases hi : toNumber m.imdb_rating with _ | i <;>
      rcases ht : toNumber m.tmdb_rating with _ | t <;>
      · simp [calculateOracleScore_shared, sharedFallback, specWeightedBlend,
          presentSignals, specSignals, h0, hm, hr, hi, ht]
        try norm_num
        try ring_nf
  · intro sig hsig
    cases sig with
    | metascore => exact shared_congr _ _ rfl hsig.symm rfl rfl rfl
    | rottenTomatoes => exact shared_congr _ _ rfl rfl hsig.symm rfl rfl
    | imdbRating => exact shared_congr _ _ rfl rfl rfl hsig.symm rfl
    | tmdbRating => exact shared_congr _ _ rfl rfl rfl rfl hsig.symm

/-- C3 witness: formula and independence at a concrete record (metascore 70
with an unparseable imdb_rating scores like metascore 70 alone). -/
theorem c3_blend_amended_witness :
    calculateOracleScore_shared { metascore := JSVal.num 70 } =
      (specWeightedBlend { metascore := JSVal.num 70 }).map
        (fun q => max 0 (min 100 (jsRound q))) ∧
    calculateOracleScore_shared
        (setSignal { metascore := JSVal.num 70, imdb_rating := JSVal.str "N/A" }
          Signal.imdbRating JSVal.undef) =
      calculateOracleScore_shared
        { metascore := JSVal.num 70, imdb_rating := JSVal.str "N/A" } :=
  ⟨(c3_blend_amended { metascore := JSVal.num 70 } rfl).1,
   (c3_blend_amended { metascore := JSVal.num 70, imdb_rating := JSVal.str "N/A" } rfl).2
     Signal.imdbRating (by decide)⟩

/-- C5 counterexample: in src/app.js raising the present metascore from 74
to 76 (all other fields fixed) drops the score from 85 to 82, because the
higher metascore disables the +5 divergence bonus. -/
theorem c5_monotone_counterexample :
    calculateOracleScore_app { metascore := JSVal.num 74, imdb_rating := JSVal.num 9 }
      = JSVal.num 85 ∧
    calculateOracleScore_app { metascore := JSVal.num 76, imdb_rating := JSVal.num 9 }
      = JSVal.num 82 ∧
    (74 : ℚ) ≤ 76 ∧ ¬ ((85 : ℚ) ≤ 82) := by
  refine ⟨?_, ?_, by norm_num, by norm_num⟩
  · simp [calculateOracleScore_app, appSignalSums, appMetaStage, appRtStage, appImdbStage, appTmdbStage, appCultBonus, appBlockbusterBonus,
      jsTruthy, jsParseIntVal, jsParseFloatVal, ratTrunc, jsToNumber]
    norm_num [jsRound]
  · simp [calculateOracleScore_app, appSignalSums, appMetaStage, appRtStage, appImdbStage, appTmdbStage, appCultBonus, appBlockbusterBonus,
      jsTruthy, jsParseIntVal, jsParseFloatVal, ratTrunc, jsToNumber]
    norm_num [jsRound]

/-- Folding the NaN-absorbing sum from NaN stays NaN. -/
theorem foldl_optStep_none (l : List (Option ℚ)) : l.foldl optStep none = none := by
  induction l with
  | nil => rfl
  | cons c l ih => cases c <;> exact ih

/-- Folding the NaN-absorbing sum from two ordered starts either hits NaN in
both runs or ends in two ordered sums. -/
theorem foldl_optStep_mono (T : List (Option ℚ)) :
    ∀ {s t : ℚ}, s ≤ t →
      (T.foldl optStep (some s) = none ∧ T.foldl optStep (some t) = none) ∨
      ∃ u w, T.foldl optStep (some s) = some u ∧ T.foldl optStep (some t) = some w ∧
        u ≤ w := by
  induction T with
  | nil => exact fun h => Or.inr ⟨_, _, rfl, rfl, h⟩
  | cons c T ih =>
      intro s t h
      rcases c with _ | x
      · exact Or.inl ⟨foldl_optStep_none T, foldl_optStep_none T⟩
      · exact ih (by linarith)

/-- Monotonicity of rounding followed by the discover-variant clamp. -/
theorem discClampRound_mono {q r : ℚ} (h : q ≤ r) :
    min 100 (max 0 (jsRound q)) ≤ min 100 (max 0 (jsRound r)) := by
  have hf : jsRound q ≤ jsRound r := Int.floor_mono (by linarith)
  exact min_le_min le_rfl (max_le_max le_rfl hf)

/-- Raising one component of the discover tail (all else fixed) either
leaves the result unchanged (both runs NaN) or keeps two ordered scores. -/
theorem discoverFinish_mono (X T : List (Option ℚ)) (mo : ℚ) {a b : ℚ} (hab : a ≤ b) :
    discoverFinish (X ++ some a :: T) mo = discoverFinish (X ++ some b :: T) mo ∨
    ∃ x y : ℤ, discoverFinish (X ++ some a :: T) mo = JSVal.num ((x : ℚ)) ∧
      discoverFinish (X ++ some b :: T) mo = JSVal.num ((y : ℚ)) ∧ x ≤ y := by
  have hne1 : X ++ some a :: T ≠ [] := by simp
  have hne2 : X ++ some b :: T ≠ [] := by simp
  unfold discoverFinish optSum
  rw [if_neg hne1, if_neg hne2, List.foldl_append, List.foldl_append]
  cases hX : X.foldl optStep (some 0) with
  | none =>
      left
      rw [foldl_optStep_none, foldl_optStep_none]
      rfl
  | some S =>
      have h1 : (some a :: T).foldl optStep (some S) = T.foldl optStep (some (S + a)) := rfl
      have h2 : (some b :: T).foldl optStep (some S) = T.foldl optStep (some (S + b)) := rfl
      rw [h1, h2]
      rcases foldl_optStep_mono T (show S + a ≤ S + b by linarith) with
        ⟨hn1, hn2⟩ | ⟨u, w, hu, hw, huw⟩
      · left
        rw [hn1, hn2]
        rfl
      · right
        have hlen : (X ++ some b :: T).length = (X ++ some a :: T).length := by simp
        rw [hu, hw, hlen]
        simp only [Option.map_some']
        refine ⟨_, _, rfl, rfl, ?_⟩
        have hn : (0 : ℚ) < ((X ++ some a :: T).length : ℚ) := by
          have hp : 0 < (X ++ some a :: T).length := by simp
          exact_mod_cast hp
        have hdiv : u / ((X ++ some a :: T).length : ℚ) ≤
            w / ((X ++ some a :: T).length : ℚ) := (div_le_div_iff_of_pos_right hn).mpr huw
        exact discClampRound_mono (by linarith)

/-- The discover metascore branch pushes the parsed value when usable. -/
theorem discMetaStage_push (m : MovieRecord) (l : List (Option ℚ)) (n : ℤ)
    (h1 : jsTruthy m.metascore = true) (h2 : m.metascore ≠ JSVal.str "N/A")
    (h3 : jsParseIntVal m.metascore = some n) :
    discMetaStage m l = l ++ [some ((n : ℚ))] := by
  simp [discMetaStage, h1, h2, h3]

/-- The discover rotten_tomatoes branch pushes the parsed value when usable. -/
theorem discRtStage_push (m : MovieRecord) (l : List (Option ℚ)) (n : ℤ)
    (h1 : jsTruthy m.rotten_tomatoes = true) (h2 : m.rotten_tomatoes ≠ JSVal.str "N/A")
    (h3 : jsParseIntVal m.rotten_tomatoes = some n) :
    discRtStage m l = l ++ [some ((n : ℚ))] := by
  simp [discRtStage, h1, h2, h3]

/-- The discover imdb branch pushes the parsed value ×10 when usable. -/
theorem discImdbStage_push (m : MovieRecord) (l : List (Option ℚ)) (x : ℚ)
    (h1 : jsTruthy m.imdb_rating = true) (h2 : m.imdb_rating ≠ JSVal.str "N/A")
    (h3 : jsParseFloatVal m.imdb_rating = some x) :
    discImdbStage m l = l ++ [some (x * 10)] := by
  simp [discImdbStage, h1, h2, h3]

/-- The discover tmdb branch pushes the coerced value ×10 when truthy and
parseable. -/
theorem discTmdbStage_push (m : MovieRecord) (l : List (Option ℚ)) (t : ℚ)
    (h1 : jsTruthy m.tmdb_rating = true) (h2 : jsToNumber m.tmdb_rating = some t) :
    discTmdbStage m l = l ++ [some (t * 10)] := by
  simp [discTmdbStage, h1, h2]

/-- Every discover push stage appends a fixed tail to its input list. -/
theorem discRtStage_tail (m : MovieRecord) : ∃ t, ∀ l, discRtStage m l = l ++ t := by
  by_cases hc : jsTruthy m.rotten_tomatoes = true ∧ m.rotten_tomatoes ≠ JSVal.str "N/A"
  · rcases hp : jsParseIntVal m.rotten_tomatoes with _ | n
    · exact ⟨[], fun l => by simp [discRtStage, hc, hp]⟩
    · exact ⟨[some ((n : ℚ))], fun l => by simp [discRtStage, hc, hp]⟩
  · exact ⟨[], fun l => by simp [discRtStage, hc]⟩

/-- The discover metascore stage appends a fixed tail to its input list. -/
theorem discMetaStage_tail (m : MovieRecord) : ∃ t, ∀ l, discMetaStage m l = l ++ t := by
  by_cases hc : jsTruthy m.metascore = true ∧ m.metascore ≠ JSVal.str "N/A"
  · rcases hp : jsParseIntVal m.metascore with _ | n
    · exact ⟨[], fun l => by simp [discMetaStage, hc, hp]⟩
    · exact ⟨[some ((n : ℚ))], fun l => by simp [discMetaStage, hc, hp]⟩
  · exact ⟨[], fun l => by simp [discMetaStage, hc]⟩

/-- The discover tmdb stage appends a fixed tail to its input list. -/
theorem discTmdbStage_tail (m : MovieRecord) : ∃ t, ∀ l, discTmdbStage m l = l ++ t := by
  by_cases hc : jsTruthy m.tmdb_rating = true
  · exact ⟨[(jsToNumber m.tmdb_rating).map (· * 10)], fun l => by simp [discTmdbStage, hc]⟩
  · exact ⟨[], fun l => by simp [discTmdbStage, hc]⟩

/-- C5 (amended): monotonicity holds for the src/shared.js variant — with no
trusted score, replacing any one parsed signal value by a larger parsed
value never lowers the result — and for the src/discover.js variant — with
no trusted score, replacing one signal that passes discover's own guard by
a larger passing value either leaves the result unchanged (a NaN run stays
a NaN run) or keeps two ordered numeric scores, ROI/revenue adjustments and
the final clamp included; the src/app.js variant violates monotonicity via
its divergence bonus. -/
theorem c5_monotone_amended :
    (∀ (m : MovieRecord) (sig : Signal) (v v' : JSVal) (a b : ℚ),
        jsToNumber m.oracle_score = none →
        toNumber v = some a → toNumber v' = some b → a ≤ b →
        ∃ x y, calculateOracleScore_shared (setSignal m sig v) = some x ∧
          calculateOracleScore_shared (setSignal m sig v') = some y ∧ x ≤ y) ∧
    (∀ (m : MovieRecord) (sig : Signal) (v v' : JSVal) (a b : ℚ),
        (m.ai_score = JSVal.undef ∨ m.ai_score = JSVal.null) →
        discoverSignalPresent sig v a → discoverSignalPresent sig v' b → a ≤ b →
        calculateOracleScore_discover (setSignal m sig v) =
            calculateOracleScore_discover (setSignal m sig v') ∨
          ∃ x y : ℤ,
            calculateOracleScore_discover (setSignal m sig v) = JSVal.num ((x : ℚ)) ∧
            calculateOracleScore_discover (setSignal m sig v') = JSVal.num ((y : ℚ)) ∧
            x ≤ y) := by
  constructor
  · intro m sig v v' a b h0 hv hv' hab
    cases sig with
    | metascore =>
        simp only [calculateOracleScore_shared, setSignal, h0, hv, hv']
        exact sharedFallback_mono_meta _ _ _ hab
    | rottenTomatoes =>
        simp only [calculateOracleScore_shared, setSignal, h0, hv, hv']
        exact sharedFallback_mono_rt _ _ _ hab
    | imdbRating =>
        simp only [calculateOracleScore_shared, setSignal, h0, hv, hv']
        exact sharedFallback_mono_imdb _ _ _ hab
    | tmdbRating =>
        simp only [calculateOracleScore_shared, setSignal, h0, hv, hv']
        exact sharedFallback_mono_tmdb _ _ _ hab
  · intro m sig v v' a b htrust hp hp' hab
    have htst : ∀ w : JSVal,
        ¬((setSignal m sig w).ai_score ≠ JSVal.undef ∧
          (setSignal m sig w).ai_score ≠ JSVal.null) := by
      intro w hcon
      rcases htrust with h | h
      · cases sig <;> exact hcon.1 h
      · cases sig <;> exact hcon.2 h
    cases sig with
    | metascore =>
        obtain ⟨h1, h2, n, h3, hna⟩ := hp
        obtain ⟨h1', h2', n', h3', hnb⟩ := hp'
        obtain ⟨tt, htt⟩ := discTmdbStage_tail m
        have hc : ∀ (w : JSVal) (k : ℤ), jsTruthy w = true → w ≠ JSVal.str "N/A" →
            jsParseIntVal w = some k →
            discoverComponents (setSignal m Signal.metascore w) =
              discRtStage m (discImdbStage m []) ++ some ((k : ℚ)) :: tt := by
          intro w k hw1 hw2 hw3
          show discTmdbStage m (discMetaStage (setSignal m Signal.metascore w)
            (discRtStage m (discImdbStage m []))) = _
          rw [discMetaStage_push (setSignal m Signal.metascore w) _ k hw1 hw2 hw3, htt]
          simp
        have e1 : calculateOracleScore_discover (setSignal m Signal.metascore v) =
            discoverFinish (discRtStage m (discImdbStage m []) ++ some ((n : ℚ)) :: tt)
              (discoverModifier m) := by
          unfold calculateOracleScore_discover
          rw [if_neg (htst v), hc v n h1 h2 h3]
          rfl
        have e2 : calculateOracleScore_discover (setSignal m Signal.metascore v') =
            discoverFinish (discRtStage m (discImdbStage m []) ++ some ((n' : ℚ)) :: tt)
              (discoverModifier m) := by
          unfold calculateOracleScore_discover
          rw [if_neg (htst v'), hc v' n' h1' h2' h3']
          rfl
        rw [e1, e2]
        exact discoverFinish_mono _ _ _
          (show ((n : ℚ)) ≤ ((n' : ℚ)) by rw [hna, hnb]; exact hab)
    | rottenTomatoes =>
        obtain ⟨h1, h2, n, h3, hna⟩ := hp
        obtain ⟨h1', h2', n', h3', hnb⟩ := hp'
        obtain ⟨tm, htm⟩ := discMetaStage_tail m
        obtain ⟨tt, htt⟩ := discTmdbStage_tail m
        have hc : ∀ (w : JSVal) (k : ℤ), jsTruthy w = true → w ≠ JSVal.str "N/A" →
            jsParseIntVal w = some k →
            discoverComponents (setSignal m Signal.rottenTomatoes w) =
              discImdbStage m [] ++ some ((k : ℚ)) :: (tm ++ tt) := by
          intro w k hw1 hw2 hw3
          show discTmdbStage m (discMetaStage m
            (discRtStage (setSignal m Signal.rottenTomatoes w) (discImdbStage m []))) = _
          rw [discRtStage_push (setSignal m Signal.rottenTomatoes w) _ k hw1 hw2 hw3,
            htm, htt]
          simp
        have e1 : calculateOracleScore_discover (setSignal m Signal.rottenTomatoes v) =
            discoverFinish (discImdbStage m [] ++ some ((n : ℚ)) :: (tm ++ tt))
              (discoverModifier m) := by
          unfold calculateOracleScore_discover
          rw [if_neg (htst v), hc v n h1 h2 h3]
          rfl
        have e2 : calculateOracleScore_discover (setSignal m Signal.rottenTomatoes v') =
            discoverFinish (discImdbStage m [] ++ some ((n' : ℚ)) :: (tm ++ tt))
              (discoverModifier m) := by
          unfold calculateOracleScore_discover
          rw [if_neg (htst v'), hc v' n' h1' h2' h3']
          rfl
        rw [e1, e2]
        exact discoverFinish_mono _ _ _
          (show ((n : ℚ)) ≤ ((n' : ℚ)) by rw [hna, hnb]; exact hab)
    | imdbRating =>
        obtain ⟨h1, h2, h3⟩ := hp
        obtain ⟨h1', h2', h3'⟩ := hp'
        obtain ⟨tr, htr⟩ := discRtStage_tail m
        obtain ⟨tm, htm⟩ := discMetaStage_tail m
        obtain ⟨tt, htt⟩ := discTmdbStage_tail m
        have hc : ∀ (w : JSVal) (x : ℚ), jsTruthy w = true → w ≠ JSVal.str "N/A" →
            jsParseFloatVal w = some x →
            discoverComponents (setSignal m Signal.imdbRating w) =
              [] ++ some (x * 10) :: (tr ++ tm ++ tt) := by
          intro w x hw1 hw2 hw3
          show discTmdbStage m (discMetaStage m (discRtStage m
            (discImdbStage (setSignal m Signal.imdbRating w) []))) = _
          rw [discImdbStage_push (setSignal m Signal.imdbRating w) _ x hw1 hw2 hw3,
            htr, htm, htt]
          simp
        have e1 : calculateOracleScore_discover (setSignal m Signal.imdbRating v) =
            discoverFinish ([] ++ some (a * 10) :: (tr ++ tm ++ tt))
              (discoverModifier m) := by
          unfold calculateOracleScore_discover
          rw [if_neg (htst v), hc v a h1 h2 h3]
          rfl
        have e2 : calculateOracleScore_discover (setSignal m Signal.imdbRating v') =
            discoverFinish ([] ++ some (b * 10) :: (tr ++ tm ++ tt))
              (discoverModifier m) := by
          unfold calculateOracleScore_discover
          rw [if_neg (htst v'), hc v' b h1' h2' h3']
          rfl
        rw [e1, e2]
        exact discoverFinish_mono _ _ _ (show a * 10 ≤ b * 10 by linarith)
    | tmdbRating =>
        obtain ⟨h1, h2⟩ := hp
        obtain ⟨h1', h2'⟩ := hp'
        have hc : ∀ (w : JSVal) (t : ℚ), jsTruthy w = true → jsToNumber w = some t →
            discoverComponents (setSignal m Signal.tmdbRating w) =
              discMetaStage m (discRtStage m (discImdbStage m []))
                ++ some (t * 10) :: [] := by
          intro w t hw1 hw2
          show discTmdbStage (setSignal m Signal.tmdbRating w)
            (discMetaStage m (discRtStage m (discImdbStage m []))) = _
          rw [discTmdbStage_push (setSignal m Signal.tmdbRating w) _ t hw1 hw2]
        have e1 : calculateOracleScore_discover (setSignal m Signal.tmdbRating v) =
            discoverFinish (discMetaStage m (discRtStage m (discImdbStage m []))
              ++ some (a * 10) :: []) (discoverModifier m) := by
          unfold calculateOracleScore_discover
          rw [if_neg (htst v), hc v a h1 h2]
          rfl
        have e2 : calculateOracleScore_discover (setSignal m Signal.tmdbRating v') =
            discoverFinish (discMetaStage m (discRtStage m (discImdbStage m []))
              ++ some (b * 10) :: []) (discoverModifier m) := by
          unfold calculateOracleScore_discover
          rw [if_neg (htst v'), hc v' b h1' h2']
          rfl
        rw [e1, e2]
        exact discoverFinish_mono _ _ _ (show a * 10 ≤ b * 10 by linarith)

/-- C5 witness: raising a lone metascore from 50 to 60 in the shared and the
discover variants. -/
theorem c5_monotone_amended_witness :
    (∃ x y, calculateOracleScore_shared (setSignal {} Signal.metascore (JSVal.num 50))
        = some x ∧
      calculateOracleScore_shared (setSignal {} Signal.metascore (JSVal.num 60))
        = some y ∧ x ≤ y) ∧
    (calculateOracleScore_discover (setSignal {} Signal.metascore (JSVal.num 50)) =
        calculateOracleScore_discover (setSignal {} Signal.metascore (JSVal.num 60)) ∨
      ∃ x y : ℤ,
        calculateOracleScore_discover (setSignal {} Signal.metascore (JSVal.num 50))
          = JSVal.num ((x : ℚ)) ∧
        calculateOracleScore_discover (setSignal {} Signal.metascore (JSVal.num 60))
          = JSVal.num ((y : ℚ)) ∧ x ≤ y) :=
  ⟨c5_monotone_amended.1 {} Signal.metascore (JSVal.num 50) (JSVal.num 60) 50 60
      rfl rfl rfl (by norm_num),
   c5_monotone_amended.2 {} Signal.metascore (JSVal.num 50) (JSVal.num 60) 50 60
      (Or.inl rfl)
      ⟨by norm_num [jsTruthy], by simp, 50, by norm_num [jsParseIntVal, ratTrunc],
        by norm_num⟩
      ⟨by norm_num [jsTruthy], by simp, 60, by norm_num [jsParseIntVal, ratTrunc],
        by norm_num⟩
      (by norm_num)⟩

/-- C6 counterexample: a record whose only field is the unparseable
tmdb_rating "N/A" has zero parsable rating signals, yet the discover variant
returns NaN, not null. -/
theorem c6_unavailable_counterexample :
    calculateOracleScore_discover { tmdb_rating := JSVal.str "N/A" } = JSVal.nan ∧
    JSVal.nan ≠ JSVal.null := by
  constructor
  · simp [calculateOracleScore_discover, discoverComponents, discImdbStage, discRtStage, discMetaStage, discTmdbStage, optSum, optStep, discoverFinish, discoverModifier,
      jsTruthy, jsParseIntVal, jsParseFloatVal, jsToNumber, jsStrToNumber,
      (by decide : numberSplit "N/A".data = none)]
  · simp

/-- C6 (amended): with no trusted score, no parsable metascore,
rotten_tomatoes or imdb_rating, and a falsy unparseable tmdb_rating, all
three variants return the unavailable value; a truthy unparseable
tmdb_rating instead yields NaN in the app/discover variants. -/
theorem c6_unavailable_amended (m : MovieRecord)
    (ho : m.oracle_score = JSVal.undef) (ha : m.ai_score = JSVal.undef)
    (hm1 : toNumber m.metascore = none) (hm2 : jsParseIntVal m.metascore = none)
    (hr1 : toNumber m.rotten_tomatoes = none) (hr2 : jsParseIntVal m.rotten_tomatoes = none)
    (hi1 : toNumber m.imdb_rating = none) (hi2 : jsParseFloatVal m.imdb_rating = none)
    (ht1 : toNumber m.tmdb_rating = none) (ht2 : jsTruthy m.tmdb_rating = false) :
    calculateOracleScore_shared m = none ∧
    calculateOracleScore_app m = JSVal.null ∧
    calculateOracleScore_discover m = JSVal.null := by
  refine ⟨?_, ?_, ?_⟩
  · simp [calculateOracleScore_shared, sharedFallback, ho, hm1, hr1, hi1, ht1, jsToNumber]
  · simp [calculateOracleScore_app, appSignalSums, appMetaStage, appRtStage, appImdbStage, appTmdbStage, ho, hm2, hr2, hi2, ht2]
  · simp [calculateOracleScore_discover, discoverFinish, discoverComponents, discImdbStage, discRtStage, discMetaStage, discTmdbStage, ha, hm2, hr2, hi2, ht2]

/-- C6 witness: the empty record yields unavailable in all three variants. -/
theorem c6_unavailable_amended_witness :
    calculateOracleScore_shared {} = none ∧
    calculateOracleScore_app {} = JSVal.null ∧
    calculateOracleScore_discover {} = JSVal.null :=
  c6_unavailable_amended {} rfl rfl rfl rfl rfl rfl rfl rfl rfl rfl

/-- C7 counterexample: in src/app.js the string "N/A" in tmdb_rating is not
treated as absent — with metascore 70 the result is NaN, while removing the
tmdb_rating field gives 70. -/
theorem c7_na_counterexample :
    calculateOracleScore_app
      { metascore := JSVal.num 70, tmdb_rating := JSVal.str "N/A" } = JSVal.nan ∧
    calculateOracleScore_app { metascore := JSVal.num 70 } = JSVal.num 70 ∧
    JSVal.nan ≠ JSVal.num 70 := by
  refine ⟨?_, ?_, ?_⟩
  · simp [calculateOracleScore_app, appSignalSums, appMetaStage, appRtStage, appImdbStage, appTmdbStage, appCultBonus, appBlockbusterBonus,
      jsTruthy, jsParseIntVal, jsParseFloatVal, ratTrunc, jsToNumber, jsStrToNumber,
      (by decide : numberSplit "N/A".data = none)]
    norm_num
  · simp [calculateOracleScore_app, appSignalSums, appMetaStage, appRtStage, appImdbStage, appTmdbStage, appCultBonus, appBlockbusterBonus,
      jsTruthy, jsParseIntVal, jsParseFloatVal, ratTrunc, jsToNumber]
    norm_num [jsRound]
  · simp

/-- The app-variant score depends on the record only through the trust-tier
field, the signal sums, and the two bonus stages. -/
theorem app_congr (m m' : MovieRecord)
    (h0 : m.oracle_score = m'.oracle_score)
    (h1 : appSignalSums m = appSignalSums m')
    (h2 : ∀ f, appCultBonus m f = appCultBonus m' f)
    (h3 : ∀ f, appBlockbusterBonus m f = appBlockbusterBonus m' f) :
    calculateOracleScore_app m = calculateOracleScore_app m' := by
  unfold calculateOracleScore_app
  simp only [h0, h1, h2, h3]

/-- The discover-variant score depends on the record only through ai_score,
the component list, and the financial modifier. -/
theorem discover_congr (m m' : MovieRecord)
    (h0 : m.ai_score = m'.ai_score)
    (h1 : discoverComponents m = discoverComponents m')
    (h2 : discoverModifier m = discoverModifier m') :
    calculateOracleScore_discover m = calculateOracleScore_discover m' := by
  unfold calculateOracleScore_discover
  simp only [h0, h1, h2]

/-- The metascore branch leaves the sums unchanged when the value is falsy,
the literal "N/A", or unparseable. -/
theorem appMetaStage_skip (m : MovieRecord) (acc : Option ℚ × ℚ)
    (h : jsTruthy m.metascore = false ∨ m.metascore = JSVal.str "N/A" ∨
      jsParseIntVal m.metascore = none) :
    appMetaStage m acc = acc := by
  rcases h with h | h | h <;> simp [appMetaStage, h]

/-- A metascore the app variant cannot use contributes nothing to the sums. -/
theorem appSignalSums_meta_skip (m : MovieRecord)
    (h : jsTruthy m.metascore = false ∨ m.metascore = JSVal.str "N/A" ∨
      jsParseIntVal m.metascore = none) :
    appSignalSums { m with metascore := JSVal.undef } = appSignalSums m := by
  unfold appSignalSums
  rw [appMetaStage_skip { m with metascore := JSVal.undef } _ (Or.inl rfl),
    appMetaStage_skip m _ h]
  rfl

/-- The rotten_tomatoes branch leaves the sums unchanged when the value is
falsy, the literal "N/A", or unparseable. -/
theorem appRtStage_skip (m : MovieRecord) (acc : Option ℚ × ℚ)
    (h : jsTruthy m.rotten_tomatoes = false ∨ m.rotten_tomatoes = JSVal.str "N/A" ∨
      jsParseIntVal m.rotten_tomatoes = none) :
    appRtStage m acc = acc := by
  rcases h with h | h | h <;> simp [appRtStage, h]

/-- A rotten_tomatoes value the app variant cannot use contributes nothing. -/
theorem appSignalSums_rt_skip (m : MovieRecord)
    (h : jsTruthy m.rotten_tomatoes = false ∨ m.rotten_tomatoes = JSVal.str "N/A" ∨
      jsParseIntVal m.rotten_tomatoes = none) :
    appSignalSums { m with rotten_tomatoes := JSVal.undef } = appSignalSums m := by
  unfold appSignalSums
  rw [appRtStage_skip { m with rotten_tomatoes := JSVal.undef } _ (Or.inl rfl),
    appRtStage_skip m _ h]
  rfl

/-- The imdb branch leaves the sums unchanged when the value is falsy, the
literal "N/A", or unparseable. -/
theorem appImdbStage_skip (m : MovieRecord) (acc : Option ℚ × ℚ)
    (h : jsTruthy m.imdb_rating = false ∨ m.imdb_rating = JSVal.str "N/A" ∨
      jsParseFloatVal m.imdb_rating = none) :
    appImdbStage m acc = acc := by
  rcases h with h | h | h <;> simp [appImdbStage, h]

/-- An imdb_rating the app variant cannot use contributes nothing. -/
theorem appSignalSums_imdb_skip (m : MovieRecord)
    (h : jsTruthy m.imdb_rating = false ∨ m.imdb_rating = JSVal.str "N/A" ∨
      jsParseFloatVal m.imdb_rating = none) :
    appSignalSums { m with imdb_rating := JSVal.undef } = appSignalSums m := by
  unfold appSignalSums
  rw [appImdbStage_skip { m with imdb_rating := JSVal.undef } _ (Or.inl rfl),
    appImdbStage_skip m _ h]
  rfl

/-- A metascore the app variant cannot parse never changes the divergence
bonus (a NaN comparison is false). -/
theorem appCultBonus_meta_skip (m : MovieRecord)
    (h : jsTruthy m.metascore = false ∨ m.metascore = JSVal.str "N/A" ∨
      jsParseIntVal m.metascore = none) :
    ∀ f, appCultBonus { m with metascore := JSVal.undef } f = appCultBonus m f := by
  intro f
  rcases hf : jsParseFloatVal m.imdb_rating with _ | iv <;> rcases h with h | h | h <;>
    simp [appCultBonus, h, hf, (by decide : jsTruthy JSVal.undef = false)]

/-- An imdb_rating the app variant cannot parse never changes the divergence
bonus. -/
theorem appCultBonus_imdb_skip (m : MovieRecord)
    (h : jsTruthy m.imdb_rating = false ∨ m.imdb_rating = JSVal.str "N/A" ∨
      jsParseFloatVal m.imdb_rating = none) :
    ∀ f, appCultBonus { m with imdb_rating := JSVal.undef } f = appCultBonus m f := by
  intro f
  rcases h with h | h | h
  · simp [appCultBonus, h, (by decide : jsTruthy JSVal.undef = false)]
  · simp [appCultBonus, jsParseFloatVal, h,
      (by decide : jsParseFloatChars "N/A".data = none),
      (by decide : jsTruthy JSVal.undef = false)]
  · simp [appCultBonus, h, (by decide : jsTruthy JSVal.undef = false)]

/-- The discover metascore push is skipped for falsy, "N/A" or unparseable
values. -/
theorem discMetaStage_skip (m : MovieRecord) (components : List (Option ℚ))
    (h : jsTruthy m.metascore = false ∨ m.metascore = JSVal.str "N/A" ∨
      jsParseIntVal m.metascore = none) :
    discMetaStage m components = components := by
  rcases h with h | h | h <;> simp [discMetaStage, h]

/-- A metascore the discover variant cannot use is not pushed. -/
theorem discoverComponents_meta_skip (m : MovieRecord)
    (h : jsTruthy m.metascore = false ∨ m.metascore = JSVal.str "N/A" ∨
      jsParseIntVal m.metascore = none) :
    discoverComponents { m with metascore := JSVal.undef } = discoverComponents m := by
  unfold discoverComponents
  rw [discMetaStage_skip { m with metascore := JSVal.undef } _ (Or.inl rfl),
    discMetaStage_skip m _ h]
  rfl

/-- The discover rotten_tomatoes push is skipped for falsy, "N/A" or
unparseable values. -/
theorem discRtStage_skip (m : MovieRecord) (components : List (Option ℚ))
    (h : jsTruthy m.rotten_tomatoes = false ∨ m.rotten_tomatoes = JSVal.str "N/A" ∨
      jsParseIntVal m.rotten_tomatoes = none) :
    discRtStage m components = components := by
  rcases h with h | h | h <;> simp [discRtStage, h]

/-- A rotten_tomatoes value the discover variant cannot use is not pushed. -/
theorem discoverComponents_rt_skip (m : MovieRecord)
    (h : jsTruthy m.rotten_tomatoes = false ∨ m.rotten_tomatoes = JSVal.str "N/A" ∨
      jsParseIntVal m.rotten_tomatoes = none) :
    discoverComponents { m with rotten_tomatoes := JSVal.undef } = discoverComponents m := by
  unfold discoverComponents
  rw [discRtStage_skip { m with rotten_tomatoes := JSVal.undef } _ (Or.inl rfl),
    discRtStage_skip m _ h]
  rfl

/-- The discover imdb push is skipped for falsy, "N/A" or unparseable
values. -/
theorem discImdbStage_skip (m : MovieRecord) (components : List (Option ℚ))
    (h : jsTruthy m.imdb_rating = false ∨ m.imdb_rating = JSVal.str "N/A" ∨
      jsParseFloatVal m.imdb_rating = none) :
    discImdbStage m components = components := by
  rcases h with h | h | h <;> simp [discImdbStage, h]

/-- An imdb_rating the discover variant cannot use is not pushed. -/
theorem discoverComponents_imdb_skip (m : MovieRecord)
    (h : jsTruthy m.imdb_rating = false ∨ m.imdb_rating = JSVal.str "N/A" ∨
      jsParseFloatVal m.imdb_rating = none) :
    discoverComponents { m with imdb_rating := JSVal.undef } = discoverComponents m := by
  unfold discoverComponents
  rw [discImdbStage_skip { m with imdb_rating := JSVal.undef } _ (Or.inl rfl),
    discImdbStage_skip m _ h]
  rfl

/-- C7 (amended): the "treated exactly as absent" rule holds in full for the
src/shared.js variant (every rating field, "N/A" in any case, unparseable
values), and in src/app.js and src/discover.js for metascore,
rotten_tomatoes and imdb_rating; a truthy non-numeric tmdb_rating instead
propagates NaN in those two variants (the counterexample). -/
theorem c7_na_amended :
    (∀ (m : MovieRecord) (sig : Signal), toNumber (getSignal m sig) = none →
        calculateOracleScore_shared (setSignal m sig JSVal.undef) =
          calculateOracleScore_shared m) ∧
    (∀ m : MovieRecord,
        jsTruthy m.metascore = false ∨ m.metascore = JSVal.str "N/A" ∨
          jsParseIntVal m.metascore = none →
        calculateOracleScore_app { m with metascore := JSVal.undef } =
          calculateOracleScore_app m) ∧
    (∀ m : MovieRecord,
        jsTruthy m.rotten_tomatoes = false ∨ m.rotten_tomatoes = JSVal.str "N/A" ∨
          jsParseIntVal m.rotten_tomatoes = none →
        calculateOracleScore_app { m with rotten_tomatoes := JSVal.undef } =
          calculateOracleScore_app m) ∧
    (∀ m : MovieRecord,
        jsTruthy m.imdb_rating = false ∨ m.imdb_rating = JSVal.str "N/A" ∨
          jsParseFloatVal m.imdb_rating = none →
        calculateOracleScore_app { m with imdb_rating := JSVal.undef } =
          calculateOracleScore_app m) ∧
    (∀ m : MovieRecord,
        jsTruthy m.metascore = false ∨ m.metascore = JSVal.str "N/A" ∨
          jsParseIntVal m.metascore = none →
        calculateOracleScore_discover { m with metascore := JSVal.undef } =
          calculateOracleScore_discover m) ∧
    (∀ m : MovieRecord,
        jsTruthy m.rotten_tomatoes = false ∨ m.rotten_tomatoes = JSVal.str "N/A" ∨
          jsParseIntVal m.rotten_tomatoes = none →
        calculateOracleScore_discover { m with rotten_tomatoes := JSVal.undef } =
          calculateOracleScore_discover m) ∧
    (∀ m : MovieRecord,
        jsTruthy m.imdb_rating = false ∨ m.imdb_rating = JSVal.str "N/A" ∨
          jsParseFloatVal m.imdb_rating = none →
        calculateOracleScore_discover { m with imdb_rating := JSVal.undef } =
          calculateOracleScore_discover m) := by
  refine ⟨?_, ?_, ?_, ?_, ?_, ?_, ?_⟩
  · intro m sig hsig
    cases sig with
    | metascore => exact shared_congr _ _ rfl hsig.symm rfl rfl rfl
    | rottenTomatoes => exact shared_congr _ _ rfl rfl hsig.symm rfl rfl
    | imdbRating => exact shared_congr _ _ rfl rfl rfl hsig.symm rfl
    | tmdbRating => exact shared_congr _ _ rfl rfl rfl rfl hsig.symm
  · intro m h
    exact app_congr _ _ rfl (appSignalSums_meta_skip m h) (appCultBonus_meta_skip m h)
      (fun f => rfl)
  · intro m h
    exact app_congr _ _ rfl (appSignalSums_rt_skip m h) (fun f => rfl) (fun f => rfl)
  · intro m h
    exact app_congr _ _ rfl (appSignalSums_imdb_skip m h) (appCultBonus_imdb_skip m h)
      (fun f => rfl)
  · intro m h
    exact discover_congr _ _ rfl (discoverComponents_meta_skip m h) rfl
  · intro m h
    exact discover_congr _ _ rfl (discoverComponents_rt_skip m h) rfl
  · intro m h
    exact discover_congr _ _ rfl (discoverComponents_imdb_skip m h) rfl

/-- C7 witness: each amended conjunct at a concrete record. -/
theorem c7_na_amended_witness :
    calculateOracleScore_shared
        (setSignal { metascore := JSVal.str "n/a", rotten_tomatoes := JSVal.num 80 }
          Signal.metascore JSVal.undef) =
      calculateOracleScore_shared
        { metascore := JSVal.str "n/a", rotten_tomatoes := JSVal.num 80 } ∧
    calculateOracleScore_app { imdb_rating := JSVal.num 8 } =
      calculateOracleScore_app
        { metascore := JSVal.str "abc", imdb_rating := JSVal.num 8 } ∧
    calculateOracleScore_app {} =
      calculateOracleScore_app { rotten_tomatoes := JSVal.str "N/A" } ∧
    calculateOracleScore_app {} = calculateOracleScore_app { imdb_rating := JSVal.nan } ∧
    calculateOracleScore_discover {} =
      calculateOracleScore_discover { metascore := JSVal.null } ∧
    calculateOracleScore_discover {} =
      calculateOracleScore_discover { rotten_tomatoes := JSVal.str "n/a" } ∧
    calculateOracleScore_discover {} =
      calculateOracleScore_discover { imdb_rating := JSVal.str "" } :=
  ⟨c7_na_amended.1 { metascore := JSVal.str "n/a", rotten_tomatoes := JSVal.num 80 }
      Signal.metascore (by decide),
   c7_na_amended.2.1 { metascore := JSVal.str "abc", imdb_rating := JSVal.num 8 }
      (Or.inr (Or.inr (by decide))),
   c7_na_amended.2.2.1 { rotten_tomatoes := JSVal.str "N/A" } (Or.inr (Or.inl rfl)),
   c7_na_amended.2.2.2.1 { imdb_rating := JSVal.nan } (Or.inl rfl),
   c7_na_amended.2.2.2.2.1 { metascore := JSVal.null } (Or.inl rfl),
   c7_na_amended.2.2.2.2.2.1 { rotten_tomatoes := JSVal.str "n/a" }
      (Or.inr (Or.inr (by decide))),
   c7_na_amended.2.2.2.2.2.2 { imdb_rating := JSVal.str "" } (Or.inl (by decide))⟩
